import Mathlib

/-!
A shallow embedding of the authentication and per-user history slice of
the TraduciAMO backend (`server.js`): bcrypt-backed registration/login,
JWT issuance and verification, the bearer-token middleware, and the four
history operations (save, list, clear, delete-one), each scoped to the
identity carried by the verified token.

Dates are modelled as natural-number timestamps (seconds), MongoDB
ObjectIds as natural numbers, and the two Mongo collections as Lean
lists.  External libraries (bcrypt, jsonwebtoken) are modelled by
deterministic executable functions; the repository's own handler code is
translated line by line.
-/

/-- A JSON value, the shape of every request/response body. -/
inductive JValue where
  | null : JValue
  | bool : Bool → JValue
  | num : Int → JValue
  | str : String → JValue
  | arr : List JValue → JValue
  | obj : List (String × JValue) → JValue

/-- Whether a JSON object has a field with the given key. -/
def JValue.hasKey : JValue → String → Bool
  | .obj kvs, k => kvs.any (fun kv => kv.1 == k)
  | _, _ => false

/-- An HTTP response: status code plus JSON body. -/
structure HttpResponse where
  status : Nat
  body : JValue

/-- Split a character list at every occurrence of `sep` (the semantics of
JavaScript `String.prototype.split` with a single-character separator). -/
def splitOnChar (sep : Char) : List Char → List (List Char)
  | [] => [[]]
  | c :: cs =>
    let rest := splitOnChar sep cs
    if c = sep then [] :: rest
    else
      match rest with
      | [] => [[c]]
      | h :: t => (c :: h) :: t

/-- String-level wrapper for `splitOnChar`. -/
def strSplitOnChar (sep : Char) (s : String) : List String :=
  (splitOnChar sep s.toList).map List.asString

/-- The numeric value of a decimal digit character, if it is one. -/
def charDigit? (c : Char) : Option Nat :=
  if c.isDigit then some (c.toNat - 48) else none

/-- Accumulating decimal parser over a character list. -/
def parseNatAux : List Char → Nat → Option Nat
  | [], acc => some acc
  | c :: cs, acc =>
    match charDigit? c with
    | some d => parseNatAux cs (acc * 10 + d)
    | none => none

/-- Parse a non-empty all-digit string as a natural number. -/
def parseNat? (s : String) : Option Nat :=
  match s.toList with
  | [] => none
  | cs => parseNatAux cs 0

/-- Modelled external library (jsonwebtoken): the claims object the
server signs — `{ userId: user._id, email: user.email }` plus the
issued-at and expiry timestamps the library adds. -/
structure Claims where
  userId : Nat
  email : String
  iat : Nat
  exp : Nat
deriving Repr, DecidableEq

/-- The `expiresIn: '30d'` window, in seconds. -/
def thirtyDaysSeconds : Nat := 30 * 24 * 60 * 60

/-- Modelled external library (jsonwebtoken): the HMAC over secret and
payload, as a deterministic function of both. -/
def jwtSignature (secret : String) (c : Claims) : String :=
  "hmac(" ++ secret ++ "|" ++ toString c.userId ++ "|" ++ c.email ++ "|"
    ++ toString c.iat ++ "|" ++ toString c.exp ++ ")"

/-- A signed token: payload claims plus signature. -/
structure Token where
  claims : Claims
  sig : String
deriving Repr, DecidableEq

/-- Modelled external library (jsonwebtoken): `jwt.sign(payload, secret,
{expiresIn: '30d'})` — expiry fixed at thirty days after issuance. -/
def jwtSign (secret : String) (uid : Nat) (em : String) (now : Nat) : Token :=
  let c : Claims := ⟨uid, em, now, now + thirtyDaysSeconds⟩
  ⟨c, jwtSignature secret c⟩

/-- Modelled external library (jsonwebtoken): `jwt.verify` succeeds
exactly when the signature matches the secret-recomputed HMAC and the
current time is strictly before the expiry claim. -/
def jwtVerify (tok : Token) (secret : String) (now : Nat) : Option Claims :=
  if tok.sig = jwtSignature secret tok.claims ∧ now < tok.claims.exp then
    some tok.claims
  else none

/-- Wire format of a token: newline-separated claim fields then the
signature (the signature itself contains no newline). -/
def serializeToken (tok : Token) : String :=
  tok.claims.email ++ "\n" ++ toString tok.claims.userId ++ "\n"
    ++ toString tok.claims.iat ++ "\n" ++ toString tok.claims.exp ++ "\n" ++ tok.sig

/-- Parse the wire format back into a structured token. -/
def parseToken (s : String) : Option Token :=
  match strSplitOnChar '\n' s with
  | [em, uid, iat, exp, sig] =>
    match parseNat? uid, parseNat? iat, parseNat? exp with
    | some u, some i, some e => some ⟨⟨u, em, i, e⟩, sig⟩
    | _, _, _ => none
  | _ => none

/-- A document of the `users` collection: `{ email, password, name,
createdAt, lastLogin }` plus the Mongo-assigned `_id` (here `uid`). -/
structure User where
  uid : Nat
  email : String
  password : String
  name : String
  createdAt : Nat
  lastLogin : Nat
deriving Repr, DecidableEq

/-- A document of the `history` collection: `{ userId, original,
translated, fromLang, toLang, timestamp }` plus the Mongo `_id`.
`fromLang`/`toLang` may be absent from the request body (stored null). -/
structure HistoryRecord where
  id : Nat
  userId : String
  original : String
  translated : String
  fromLang : Option String
  toLang : Option String
  timestamp : Nat
deriving Repr, DecidableEq

/-- The database state: both collections plus the next fresh ObjectId. -/
structure DB where
  users : List User
  history : List HistoryRecord
  nextId : Nat
deriving Repr, DecidableEq

/-- Mongo `usersCollection.insertOne` under the unique index on `email`
created at startup: the storage layer itself refuses a duplicate email
with a duplicate-key error, independently of any application check. -/
def insertUserUnique (u : User) (users : List User) : Except Unit (List User) :=
  if users.any (fun v => v.email == u.email) then Except.error ()
  else Except.ok (users ++ [u])

/-- Mongo `updateOne`: apply `f` to the first document matching `p`. -/
def updateFirstUser (p : User → Bool) (f : User → User) : List User → List User
  | [] => []
  | u :: rest => if p u then f u :: rest else u :: updateFirstUser p f rest

/-- Modelled external library (bcrypt): `bcrypt.hash` as a
self-describing digest embedding cost and plaintext deterministically
(the real salt/one-wayness is irrelevant to the handler logic). -/
def bcryptHash (plain : String) (cost : Nat) : String :=
  "bcrypt$" ++ toString cost ++ "$" ++ plain

/-- Modelled external library (bcrypt): `bcrypt.compare` recomputes the
digest at the cost this server always uses (10) and compares. -/
def bcryptCompare (plain digest : String) : Bool :=
  digest == bcryptHash plain 10

/-- Outcome of the `authenticateToken` middleware: either a rejection
response or the verified claims attached to the request as `req.user`. -/
inductive AuthOutcome where
  | reject : HttpResponse → AuthOutcome
  | authed : Claims → AuthOutcome

/-- JavaScript `authHeader && authHeader.split(' ')[1]` — extract the bearer part;
an absent header, a header without a second word, and an empty second
word (all falsy in JavaScript) yield no token. -/
def extractBearer (authHeader : Option String) : Option String :=
  match authHeader with
  | none => none
  | some h =>
    match (strSplitOnChar ' ' h).get? 1 with
    | none => none
    | some t => if t == "" then none else some t

/-- The `authenticateToken` middleware: 401 when no token is present,
403 when `jwt.verify` fails (malformed, bad signature, or expired),
otherwise the verified claims. -/
def authenticateToken (authHeader : Option String) (secret : String) (now : Nat) :
    AuthOutcome :=
  match extractBearer authHeader with
  | none => .reject ⟨401, .obj [("error", .str "Access token required")]⟩
  | some ts =>
    match parseToken ts with
    | none => .reject ⟨403, .obj [("error", .str "Invalid or expired token")]⟩
    | some tok =>
      match jwtVerify tok secret now with
      | none => .reject ⟨403, .obj [("error", .str "Invalid or expired token")]⟩
      | some c => .authed c

/-- A protected route: the middleware runs first; only on success does
the downstream handler run, with the token-derived claims. -/
def protectedRoute (handler : Claims → DB → Nat → HttpResponse × DB)
    (authHeader : Option String) (secret : String) (now : Nat) (db : DB) :
    HttpResponse × DB :=
  match authenticateToken authHeader secret now with
  | .reject r => (r, db)
  | .authed c => handler c db now

/-- JavaScript `name || email.split('@')[0]`: default display name. -/
def defaultName (nm : Option String) (email : String) : String :=
  match nm with
  | some n => if n == "" then (strSplitOnChar '@' email).headD "" else n
  | none => (strSplitOnChar '@' email).headD ""

/-- Request body of POST /api/auth/register. -/
structure RegisterBody where
  email : Option String
  password : Option String
  name : Option String
deriving Repr, DecidableEq

/-- The POST /api/auth/register handler. -/
def registerHandler (secret : String) (b : RegisterBody) (db : DB) (now : Nat) :
    HttpResponse × DB :=
  match b.email, b.password with
  | some e, some p =>
    if e == "" || p == "" then
      (⟨400, .obj [("error", .str "Email and password are required")]⟩, db)
    else if p.length < 6 then
      (⟨400, .obj [("error", .str "Password must be at least 6 characters")]⟩, db)
    else
      match db.users.find? (fun u => u.email == e) with
      | some _ => (⟨400, .obj [("error", .str "User already exists")]⟩, db)
      | none =>
        let u : User :=
          ⟨db.nextId, e, bcryptHash p 10, defaultName b.name e, now, now⟩
        match insertUserUnique u db.users with
        | .error _ => (⟨500, .obj [("error", .str "duplicate key error")]⟩, db)
        | .ok users2 =>
          let tok := jwtSign secret u.uid u.email now
          (⟨200, .obj [("success", .bool true),
              ("token", .str (serializeToken tok)),
              ("user", .obj [("email", .str u.email), ("name", .str u.name)])]⟩,
           { db with users := users2, nextId := db.nextId + 1 })
  | _, _ => (⟨400, .obj [("error", .str "Email and password are required")]⟩, db)

/-- Request body of POST /api/auth/login. -/
structure LoginBody where
  email : Option String
  password : Option String
deriving Repr, DecidableEq

/-- The POST /api/auth/login handler. -/
def loginHandler (secret : String) (b : LoginBody) (db : DB) (now : Nat) :
    HttpResponse × DB :=
  match b.email, b.password with
  | some e, some p =>
    if e == "" || p == "" then
      (⟨400, .obj [("error", .str "Email and password are required")]⟩, db)
    else
      match db.users.find? (fun u => u.email == e) with
      | none => (⟨401, .obj [("error", .str "Invalid email or password")]⟩, db)
      | some u =>
        if !(bcryptCompare p u.password) then
          (⟨401, .obj [("error", .str "Invalid email or password")]⟩, db)
        else
          let users2 :=
            updateFirstUser (fun v => v.uid == u.uid)
              (fun v => { v with lastLogin := now }) db.users
          let tok := jwtSign secret u.uid u.email now
          (⟨200, .obj [("success", .bool true),
              ("token", .str (serializeToken tok)),
              ("user", .obj [("email", .str u.email), ("name", .str u.name)])]⟩,
           { db with users := users2 })
  | _, _ => (⟨400, .obj [("error", .str "Email and password are required")]⟩, db)

/-- The GET /api/auth/me handler: look the user up by the token email
and answer with the password-free projection. -/
def meHandler (c : Claims) (db : DB) : HttpResponse × DB :=
  match db.users.find? (fun u => u.email == c.email) with
  | none => (⟨404, .obj [("error", .str "User not found")]⟩, db)
  | some u =>
    (⟨200, .obj [("email", .str u.email), ("name", .str u.name),
        ("createdAt", .num (Int.ofNat u.createdAt))]⟩, db)

/-- The `.sort({timestamp: -1})` order: descending creation time. -/
def byTimestampDesc (a b : HistoryRecord) : Prop :=
  b.timestamp ≤ a.timestamp

instance : DecidableRel byTimestampDesc :=
  fun a b => Nat.decLe b.timestamp a.timestamp

instance : IsTotal HistoryRecord byTimestampDesc :=
  ⟨fun a b => Nat.le_total b.timestamp a.timestamp⟩

instance : IsTrans HistoryRecord byTimestampDesc :=
  ⟨fun _ _ _ hab hbc => Nat.le_trans hbc hab⟩

/-- The query of GET /api/history/get:
`find({userId: email}).sort({timestamp: -1}).limit(100).toArray()`. -/
def listRecords (c : Claims) (db : DB) : List HistoryRecord :=
  ((db.history.filter (fun r => r.userId == c.email)).insertionSort
    byTimestampDesc).take 100

/-- JSON serialization of an absent-or-present string field. -/
def optStr : Option String → JValue
  | none => JValue.null
  | some s => JValue.str s

/-- JSON serialization of a history document, as the driver returns it. -/
def HistoryRecord.toJson (r : HistoryRecord) : JValue :=
  .obj [("_id", .num (Int.ofNat r.id)), ("userId", .str r.userId),
    ("original", .str r.original), ("translated", .str r.translated),
    ("fromLang", optStr r.fromLang), ("toLang", optStr r.toLang),
    ("timestamp", .num (Int.ofNat r.timestamp))]

/-- The GET /api/history/get handler.  `q` models any client-supplied
identity field in the query string, which the handler never reads. -/
def listHandler (c : Claims) (q : Option String) (db : DB) : HttpResponse × DB :=
  (⟨200, .arr ((listRecords c db).map HistoryRecord.toJson)⟩, db)

/-- Request body of POST /api/history/save.  `userId` models any
client-supplied identity field, which the handler never reads. -/
structure SaveBody where
  original : Option String
  translated : Option String
  fromLang : Option String
  toLang : Option String
  userId : Option String
deriving Repr, DecidableEq

/-- The POST /api/history/save handler: the stored `userId` comes from
the JWT claims, never from the body. -/
def saveHandler (c : Claims) (b : SaveBody) (db : DB) (now : Nat) :
    HttpResponse × DB :=
  match b.original, b.translated with
  | some o, some t =>
    if o == "" || t == "" then
      (⟨400, .obj [("error", .str "Missing required fields")]⟩, db)
    else
      let r : HistoryRecord := ⟨db.nextId, c.email, o, t, b.fromLang, b.toLang, now⟩
      (⟨200, .obj [("success", .bool true), ("message", .str "Translation saved")]⟩,
       { db with history := db.history ++ [r], nextId := db.nextId + 1 })
  | _, _ => (⟨400, .obj [("error", .str "Missing required fields")]⟩, db)

/-- The DELETE /api/history/clear handler:
`deleteMany({userId: email})`, answering with the deleted count
embedded in a message string.  `q` models any client-supplied identity
field, which the handler never reads. -/
def clearHandler (c : Claims) (q : Option String) (db : DB) : HttpResponse × DB :=
  let n := (db.history.filter (fun r => r.userId == c.email)).length
  (⟨200, .obj [("success", .bool true),
      ("message", .str ("Deleted " ++ toString n ++ " translations"))]⟩,
   { db with history := db.history.filter (fun r => !(r.userId == c.email)) })

/-- The DELETE /api/history/delete/:id handler:
`deleteOne({_id: new ObjectId(id), userId: email})`; a malformed id
makes the ObjectId constructor throw (500), a zero deleted count is
404.  `q` models any client-supplied identity field, never read. -/
def deleteOneHandler (c : Claims) (idStr : String) (q : Option String) (db : DB) :
    HttpResponse × DB :=
  match parseNat? idStr with
  | none => (⟨500, .obj [("error", .str "input must be a 24 character hex string")]⟩, db)
  | some i =>
    let p : HistoryRecord → Bool := fun r => r.id == i && r.userId == c.email
    let deletedCount : Nat := if db.history.any p then 1 else 0
    let db2 : DB := { db with history := db.history.eraseP p }
    if deletedCount == 0 then
      (⟨404, .obj [("error", .str "Translation not found")]⟩, db2)
    else
      (⟨200, .obj [("success", .bool true), ("message", .str "Translation deleted")]⟩, db2)

/-- Two user documents equal in every stored field except possibly the
password hash. -/
def eqExceptPassword (u v : User) : Prop :=
  u.uid = v.uid ∧ u.email = v.email ∧ u.name = v.name ∧
    u.createdAt = v.createdAt ∧ u.lastLogin = v.lastLogin

/-- C5: a token verifies exactly when its signature matches the server
secret and the current time is before its expiry; a signed token expires
thirty days after issuance, verifies to exactly the claims it was issued
for while unexpired, and fails verification once expired even though its
signature is correct by construction. -/
theorem token_valid_iff_signature_and_unexpired (secret : String) (tok : Token)
    (now : Nat) (uid : Nat) (em : String) (t0 : Nat) :
    (∀ c, jwtVerify tok secret now = some c ↔
      (tok.sig = jwtSignature secret tok.claims ∧ now < tok.claims.exp ∧
        c = tok.claims)) ∧
    (jwtSign secret uid em t0).claims.exp = t0 + thirtyDaysSeconds ∧
    (now < t0 + thirtyDaysSeconds →
      jwtVerify (jwtSign secret uid em t0) secret now =
        some ⟨uid, em, t0, t0 + thirtyDaysSeconds⟩) ∧
    (t0 + thirtyDaysSeconds ≤ now →
      jwtVerify (jwtSign secret uid em t0) secret now = none) := by
  refine ⟨fun c => ?_, rfl, fun h => ?_, fun h => ?_⟩
  · by_cases hv : tok.sig = jwtSignature secret tok.claims ∧ now < tok.claims.exp
    · rw [jwtVerify, if_pos hv]
      constructor
      · intro he
        exact ⟨hv.1, hv.2, (Option.some.injEq _ _ ▸ he).symm⟩
      · rintro ⟨-, -, rfl⟩
        rfl
    · rw [jwtVerify, if_neg hv]
      constructor
      · intro he
        exact absurd he (by simp)
      · rintro ⟨h1, h2, -⟩
        exact absurd ⟨h1, h2⟩ hv
  · rw [jwtSign, jwtVerify]
    exact if_pos ⟨rfl, h⟩
  · rw [jwtSign, jwtVerify, if_neg]
    intro hc
    exact absurd hc.2 (Nat.not_lt.mpr h)

/-- Witness for C5: a token signed at time 0 verifies at time 5 to the
claims it was issued with, and fails verification at an expired time. -/
theorem token_valid_iff_signature_and_unexpired_witness :
    jwtVerify (jwtSign "s3cr3t" 1 "a@x.com" 0) "s3cr3t" 5 =
      some ⟨1, "a@x.com", 0, 0 + thirtyDaysSeconds⟩ ∧
    jwtVerify (jwtSign "s3cr3t" 1 "a@x.com" 0) "s3cr3t" 2592000 = none :=
  ⟨(token_valid_iff_signature_and_unexpired "s3cr3t" (jwtSign "s3cr3t" 1 "a@x.com" 0)
      5 1 "a@x.com" 0).2.2.1 (by decide),
   (token_valid_iff_signature_and_unexpired "s3cr3t" (jwtSign "s3cr3t" 1 "a@x.com" 0)
      2592000 1 "a@x.com" 0).2.2.2 (by decide)⟩

/-- C6: on a protected route, a missing bearer token yields 401, a
present but malformed, badly signed, or expired token yields 403, and a
valid token runs the downstream handler with the token-derived claims. -/
theorem middleware_maps_missing_to_401_invalid_to_403
    (handler : Claims → DB → Nat → HttpResponse × DB)
    (h : Option String) (secret : String) (now : Nat) (db : DB) :
    (extractBearer h = none →
      protectedRoute handler h secret now db =
        (⟨401, .obj [("error", .str "Access token required")]⟩, db)) ∧
    (∀ ts, extractBearer h = some ts → parseToken ts = none →
      protectedRoute handler h secret now db =
        (⟨403, .obj [("error", .str "Invalid or expired token")]⟩, db)) ∧
    (∀ ts tok, extractBearer h = some ts → parseToken ts = some tok →
      jwtVerify tok secret now = none →
      protectedRoute handler h secret now db =
        (⟨403, .obj [("error", .str "Invalid or expired token")]⟩, db)) ∧
    (∀ ts tok c, extractBearer h = some ts → parseToken ts = some tok →
      jwtVerify tok secret now = some c →
      protectedRoute handler h secret now db = handler c db now) := by
  refine ⟨fun h1 => ?_, fun ts h1 h2 => ?_, fun ts tok h1 h2 h3 => ?_,
    fun ts tok c h1 h2 h3 => ?_⟩
  · simp only [protectedRoute, authenticateToken, h1]
  · simp only [protectedRoute, authenticateToken, h1, h2]
  · simp only [protectedRoute, authenticateToken, h1, h2, h3]
  · simp only [protectedRoute, authenticateToken, h1, h2, h3]

/-- Downstream handler used by the C6 witness. -/
def mwHandler : Claims → DB → Nat → HttpResponse × DB :=
  fun c db _ => (⟨200, JValue.str c.email⟩, db)

/-- Empty store used by the C6 witness. -/
def mwDb : DB := ⟨[], [], 0⟩

/-- Serialized valid token used by the C6 witness. -/
def mwToken : String := serializeToken (jwtSign "s3cr3t" 1 "a@x.com" 0)

/-- Witness for C6: with no header the route answers 401; with a valid
bearer token the downstream handler runs on the token-derived claims. -/
theorem middleware_maps_missing_to_401_invalid_to_403_witness :
    protectedRoute mwHandler none "s3cr3t" 5 mwDb =
      (⟨401, .obj [("error", .str "Access token required")]⟩, mwDb) ∧
    protectedRoute mwHandler (some ("Bearer " ++ mwToken)) "s3cr3t" 5 mwDb =
      mwHandler ⟨1, "a@x.com", 0, 0 + thirtyDaysSeconds⟩ mwDb 5 :=
  ⟨(middleware_maps_missing_to_401_invalid_to_403 mwHandler none "s3cr3t" 5 mwDb).1 rfl,
   (middleware_maps_missing_to_401_invalid_to_403 mwHandler (some ("Bearer " ++ mwToken))
      "s3cr3t" 5 mwDb).2.2.2 mwToken (jwtSign "s3cr3t" 1 "a@x.com" 0)
      ⟨1, "a@x.com", 0, 0 + thirtyDaysSeconds⟩ (by decide) (by decide) (by decide)⟩

/-- Claims of the caller in the C8 counterexample. -/
def c8Claims : Claims := ⟨1, "a@x.com", 0, thirtyDaysSeconds⟩

/-- Store contents in the C8 counterexample: two records of the caller. -/
def c8Db : DB :=
  ⟨[], [⟨0, "a@x.com", "ciao", "hello", some "it", some "en", 3⟩,
        ⟨1, "a@x.com", "mare", "sea", some "it", some "en", 5⟩], 2⟩

/-- C8 counterexample: the success response of the clear operation
carries `success` and `message` fields but no `count` field, so the
specified `{success, count}` shape does not hold. -/
theorem clear_response_has_no_count_field :
    (clearHandler c8Claims none c8Db).1.status = 200 ∧
    JValue.hasKey (clearHandler c8Claims none c8Db).1.body "success" = true ∧
    JValue.hasKey (clearHandler c8Claims none c8Db).1.body "message" = true ∧
    JValue.hasKey (clearHandler c8Claims none c8Db).1.body "count" = false := by
  decide

/-- C8 (amended): the clear operation removes every record owned by the
caller and answers 200 with the removed count embedded in the message
string `Deleted N translations` (zero removals included), rather than in
a dedicated count field. -/
theorem clear_removes_all_owned_and_reports_count_in_message
    (c : Claims) (q : Option String) (db : DB) :
    clearHandler c q db =
      (⟨200, .obj [("success", .bool true),
          ("message", .str ("Deleted "
            ++ toString (db.history.filter (fun r => r.userId == c.email)).length
            ++ " translations"))]⟩,
       { db with history := db.history.filter (fun r => !(r.userId == c.email)) }) ∧
    (clearHandler c q db).2.history.filter (fun r => r.userId == c.email) = [] := by
  refine ⟨rfl, ?_⟩
  simp [clearHandler, List.filter_filter]

/-- C1: the history list response is exactly the serialization of the
caller-scoped query, and every record that query returns is owned by the
caller's token identity. -/
theorem list_returns_only_callers_records (c : Claims) (q : Option String) (db : DB) :
    (listHandler c q db).1 =
      ⟨200, .arr ((listRecords c db).map HistoryRecord.toJson)⟩ ∧
    ∀ r ∈ listRecords c db, r.userId = c.email := by
  refine ⟨rfl, fun r hr => ?_⟩
  have h1 : r ∈ (db.history.filter
      (fun x => x.userId == c.email)).insertionSort byTimestampDesc :=
    List.mem_of_mem_take hr
  have h2 := (List.mem_insertionSort byTimestampDesc).mp h1
  exact eq_of_beq (List.mem_filter.mp h2).2

/-- Caller claims in the C1 witness. -/
def c1Claims : Claims := ⟨1, "a@x.com", 0, thirtyDaysSeconds⟩

/-- A record owned by the C1 witness caller. -/
def c1Rec : HistoryRecord := ⟨0, "a@x.com", "ciao", "hello", some "it", some "en", 3⟩

/-- Store with records of two different owners used by the C1 witness. -/
def c1Db : DB := ⟨[], [c1Rec, ⟨1, "b@x.com", "x", "y", none, none, 4⟩], 2⟩

/-- Witness for C1: in a mixed-owner store the caller's record is listed
and is owned by the caller. -/
theorem list_returns_only_callers_records_witness :
    c1Rec ∈ listRecords c1Claims c1Db ∧ c1Rec.userId = c1Claims.email :=
  ⟨by decide, (list_returns_only_callers_records c1Claims none c1Db).2 c1Rec (by decide)⟩

/-- C9: the history list holds at most 100 records, is sorted descending
by creation timestamp, and any caller-owned record left out is no more
recent than every listed record. -/
theorem list_sorted_desc_and_capped (c : Claims) (db : DB) :
    (listRecords c db).length ≤ 100 ∧
    List.Sorted byTimestampDesc (listRecords c db) ∧
    ∀ r ∈ db.history, r.userId = c.email →
      (r ∈ listRecords c db ∨ ∀ s ∈ listRecords c db, r.timestamp ≤ s.timestamp) := by
  refine ⟨List.length_take_le _ _, ?_, fun r hr hro => ?_⟩
  · exact List.Pairwise.sublist (List.take_sublist _ _)
      (List.sorted_insertionSort byTimestampDesc _)
  · by_cases hmem : r ∈ listRecords c db
    · exact Or.inl hmem
    · refine Or.inr fun s hs => ?_
      have hrL : r ∈ (db.history.filter
          (fun x => x.userId == c.email)).insertionSort byTimestampDesc :=
        (List.mem_insertionSort byTimestampDesc).mpr
          (List.mem_filter.mpr ⟨hr, beq_iff_eq.mpr hro⟩)
      have hsplit := List.take_append_drop 100 ((db.history.filter
          (fun x => x.userId == c.email)).insertionSort byTimestampDesc)
      have hdrop : r ∈ ((db.history.filter
          (fun x => x.userId == c.email)).insertionSort byTimestampDesc).drop 100 := by
        rcases List.mem_append.mp (hsplit ▸ hrL) with h | h
        · exact absurd h hmem
        · exact h
      have hpair : List.Pairwise byTimestampDesc (((db.history.filter
          (fun x => x.userId == c.email)).insertionSort byTimestampDesc).take 100 ++
          ((db.history.filter
          (fun x => x.userId == c.email)).insertionSort byTimestampDesc).drop 100) := by
        rw [hsplit]
        exact List.sorted_insertionSort byTimestampDesc _
      exact (List.pairwise_append.mp hpair).2.2 s hs r hdrop

/-- Caller claims in the C9 witness. -/
def c9Claims : Claims := ⟨2, "b@x.com", 0, thirtyDaysSeconds⟩

/-- A record owned by the C9 witness caller. -/
def c9Rec : HistoryRecord := ⟨5, "b@x.com", "cane", "dog", none, none, 9⟩

/-- Store used by the C9 witness. -/
def c9Db : DB := ⟨[], [⟨4, "a@x.com", "u", "v", none, none, 1⟩, c9Rec], 6⟩

/-- Witness for C9: a concrete caller-owned record is either listed or
older than everything listed. -/
theorem list_sorted_desc_and_capped_witness :
    (c9Rec ∈ c9Db.history ∧ c9Rec.userId = c9Claims.email) ∧
    (c9Rec ∈ listRecords c9Claims c9Db ∨
      ∀ s ∈ listRecords c9Claims c9Db, c9Rec.timestamp ≤ s.timestamp) :=
  ⟨⟨by decide, by decide⟩,
   (list_sorted_desc_and_capped c9Claims c9Db).2.2 c9Rec (by decide) (by decide)⟩

/-- C2: deleting a record by id that exists but belongs to a different
identity answers 404 (not 403), leaves the store unchanged, and the
record is still in the true owner's filtered view of the store. -/
theorem deleteOne_nonowner_is_notfound (c : Claims) (idStr : String) (i : Nat)
    (q : Option String) (db : DB) (r : HistoryRecord)
    (hid : parseNat? idStr = some i)
    (hr : r ∈ db.history) (hri : r.id = i) (hro : r.userId ≠ c.email)
    (hnone : ∀ s ∈ db.history, s.id = i → s.userId ≠ c.email) :
    deleteOneHandler c idStr q db =
      (⟨404, .obj [("error", .str "Translation not found")]⟩, db) ∧
    r ∈ (deleteOneHandler c idStr q db).2.history.filter
      (fun s => s.userId == r.userId) := by
  have hp : ∀ s ∈ db.history, ¬ ((s.id == i && s.userId == c.email) = true) := by
    intro s hs hc
    rw [Bool.and_eq_true, beq_iff_eq, beq_iff_eq] at hc
    exact hnone s hs hc.1 hc.2
  have hany : (db.history.any fun s => s.id == i && s.userId == c.email) = false :=
    List.any_eq_false.mpr hp
  have herase : (db.history.eraseP fun s => s.id == i && s.userId == c.email) =
      db.history :=
    List.eraseP_of_forall_not hp
  have h1 : deleteOneHandler c idStr q db =
      (⟨404, .obj [("error", .str "Translation not found")]⟩, db) := by
    simp only [deleteOneHandler, hid, hany, herase]
    rfl
  exact ⟨h1, by
    rw [h1]
    exact List.mem_filter.mpr ⟨hr, beq_self_eq_true r.userId⟩⟩

/-- Caller claims in the C2 witness. -/
def c2Claims : Claims := ⟨1, "a@x.com", 0, thirtyDaysSeconds⟩

/-- A record of a different owner used by the C2 witness. -/
def c2Rec : HistoryRecord := ⟨7, "b@x.com", "sole", "sun", none, none, 2⟩

/-- Store used by the C2 witness. -/
def c2Db : DB := ⟨[], [c2Rec], 8⟩

/-- Witness for C2: a non-owner delete on an existing id answers 404,
the store is unchanged, and the owner can still see the record. -/
theorem deleteOne_nonowner_is_notfound_witness :
    (parseNat? "7" = some 7 ∧ c2Rec ∈ c2Db.history ∧ c2Rec.id = 7 ∧
      c2Rec.userId ≠ c2Claims.email) ∧
    deleteOneHandler c2Claims "7" none c2Db =
      (⟨404, JValue.obj [("error", JValue.str "Translation not found")]⟩, c2Db) ∧
    c2Rec ∈ (deleteOneHandler c2Claims "7" none c2Db).2.history.filter
      (fun s => s.userId == c2Rec.userId) :=
  ⟨⟨by decide, by decide, by decide, by decide⟩,
   (deleteOne_nonowner_is_notfound c2Claims "7" 7 none c2Db c2Rec (by decide)
      (by decide) (by decide) (by decide) (by decide)).1,
   (deleteOne_nonowner_is_notfound c2Claims "7" 7 none c2Db c2Rec (by decide)
      (by decide) (by decide) (by decide) (by decide)).2⟩

/-- C3: each history handler's result is invariant under any
client-supplied identity field in the body or query, and every record
the save operation adds is owned by the token-derived identity. -/
theorem identity_derived_from_token_only (c : Claims) (b : SaveBody)
    (x y : Option String) (idStr : String) (db : DB) (now : Nat) :
    saveHandler c { b with userId := x } db now =
      saveHandler c { b with userId := y } db now ∧
    listHandler c x db = listHandler c y db ∧
    clearHandler c x db = clearHandler c y db ∧
    deleteOneHandler c idStr x db = deleteOneHandler c idStr y db ∧
    ∀ r ∈ (saveHandler c b db now).2.history, r ∈ db.history ∨ r.userId = c.email := by
  refine ⟨rfl, rfl, rfl, rfl, fun r hrmem => ?_⟩
  rcases b with ⟨bo, bt, bf, bg, bu⟩
  cases bo with
  | none => exact Or.inl (by simpa [saveHandler] using hrmem)
  | some o =>
    cases bt with
    | none => exact Or.inl (by simpa [saveHandler] using hrmem)
    | some t =>
      by_cases hot : (o == "" || t == "") = true
      · rw [saveHandler] at hrmem
        simp only [hot, if_true] at hrmem
        exact Or.inl hrmem
      · rw [saveHandler] at hrmem
        simp only [hot, if_false, Bool.false_eq_true] at hrmem
        rcases List.mem_append.mp hrmem with h | h
        · exact Or.inl h
        · right
          rw [List.mem_singleton.mp h]

/-- Caller claims in the C3 witness. -/
def c3Claims : Claims := ⟨3, "c@x.com", 0, thirtyDaysSeconds⟩

/-- Save body carrying a foreign client-supplied identity, for C3. -/
def c3Body : SaveBody := ⟨some "ciao", some "hello", some "it", some "en", some "b@x.com"⟩

/-- Empty store used by the C3 witness. -/
def c3Db : DB := ⟨[], [], 0⟩

/-- The record the C3 witness save creates. -/
def c3Rec : HistoryRecord := ⟨0, "c@x.com", "ciao", "hello", some "it", some "en", 0⟩

/-- Witness for C3: despite a foreign identity in the body, the saved
record is owned by the token identity. -/
theorem identity_derived_from_token_only_witness :
    c3Rec ∈ (saveHandler c3Claims c3Body c3Db 0).2.history ∧
    (c3Rec ∈ c3Db.history ∨ c3Rec.userId = c3Claims.email) :=
  ⟨by decide,
   (identity_derived_from_token_only c3Claims c3Body none (some "b@x.com") "0" c3Db
      0).2.2.2.2 c3Rec (by decide)⟩

/-- C4: with a fresh email the first registration succeeds and appends
exactly one user record; an immediate second registration of the same
email fails with the duplicate error and changes nothing; and the
storage-layer uniqueness constraint itself rejects any insert of that
email, independently of the application-level existence check. -/
theorem register_duplicate_rejected (secret : String) (b : RegisterBody)
    (e p : String) (db : DB) (n1 n2 : Nat)
    (he : b.email = some e) (hp : b.password = some p)
    (hee : e ≠ "") (hpe : p ≠ "") (hlen : ¬ p.length < 6)
    (hfresh : ∀ u ∈ db.users, u.email ≠ e) :
    (registerHandler secret b db n1).1.status = 200 ∧
    (registerHandler secret b db n1).2.users =
      db.users ++ [⟨db.nextId, e, bcryptHash p 10, defaultName b.name e, n1, n1⟩] ∧
    registerHandler secret b (registerHandler secret b db n1).2 n2 =
      (⟨400, .obj [("error", .str "User already exists")]⟩,
       (registerHandler secret b db n1).2) ∧
    ∀ u2 : User, u2.email = e →
      insertUserUnique u2 (registerHandler secret b db n1).2.users =
        Except.error () := by
  have hcond : (e == "" || p == "") = false := by
    rw [Bool.or_eq_false_iff]
    exact ⟨beq_eq_false_iff_ne.mpr hee, beq_eq_false_iff_ne.mpr hpe⟩
  have hfind : db.users.find? (fun u => u.email == e) = none :=
    List.find?_eq_none.mpr fun x hx hc => hfresh x hx (eq_of_beq hc)
  have hany : (db.users.any fun v => v.email == e) = false :=
    List.any_eq_false.mpr fun x hx hc => hfresh x hx (eq_of_beq hc)
  have h1 : registerHandler secret b db n1 =
      (⟨200, .obj [("success", .bool true),
          ("token", .str (serializeToken (jwtSign secret db.nextId e n1))),
          ("user", .obj [("email", .str e),
            ("name", .str (defaultName b.name e))])]⟩,
       { db with
          users := db.users ++
            [⟨db.nextId, e, bcryptHash p 10, defaultName b.name e, n1, n1⟩],
          nextId := db.nextId + 1 }) := by
    simp only [registerHandler, he, hp, hcond, hlen, if_false, hfind,
      insertUserUnique, hany, Bool.false_eq_true]
  have hfind2 : ((db.users ++
      [(⟨db.nextId, e, bcryptHash p 10, defaultName b.name e, n1, n1⟩ : User)]).find?
        (fun u => u.email == e)) =
      some ⟨db.nextId, e, bcryptHash p 10, defaultName b.name e, n1, n1⟩ := by
    rw [List.find?_append, hfind, Option.none_or]
    exact List.find?_cons_of_pos _ (beq_self_eq_true e)
  refine ⟨by rw [h1], by rw [h1], ?_, ?_⟩
  · rw [h1]
    simp only [registerHandler, he, hp, hcond, hlen, if_false, hfind2,
      Bool.false_eq_true]
  · intro u2 hu2
    rw [h1, insertUserUnique, if_pos]
    rw [List.any_append]
    refine Bool.or_eq_true_iff.mpr (Or.inr ?_)
    simp [hu2]

/-- Registration body used by the C4 witness. -/
def c4Body : RegisterBody := ⟨some "a@x.com", some "secret1", none⟩

/-- Empty store used by the C4 witness. -/
def c4Db : DB := ⟨[], [], 0⟩

/-- Witness for C4: first registration of a fresh email answers 200 and
the immediate repeat answers the duplicate 400 without changing state. -/
theorem register_duplicate_rejected_witness :
    (c4Body.email = some "a@x.com" ∧ c4Body.password = some "secret1" ∧
      ¬ ("secret1".length < 6) ∧ ∀ u ∈ c4Db.users, u.email ≠ "a@x.com") ∧
    (registerHandler "s" c4Body c4Db 1).1.status = 200 ∧
    registerHandler "s" c4Body (registerHandler "s" c4Body c4Db 1).2 2 =
      (⟨400, JValue.obj [("error", JValue.str "User already exists")]⟩,
       (registerHandler "s" c4Body c4Db 1).2) :=
  ⟨⟨rfl, rfl, by decide, by decide⟩,
   (register_duplicate_rejected "s" c4Body "a@x.com" "secret1" c4Db 1 2 rfl rfl
      (by decide) (by decide) (by decide) (by decide)).1,
   (register_duplicate_rejected "s" c4Body "a@x.com" "secret1" c4Db 1 2 rfl rfl
      (by decide) (by decide) (by decide) (by decide)).2.2.1⟩

/-- C7: when the email is unknown or the password comparison fails,
login answers 401 with the one generic message and leaves the store —
including every last-login timestamp — untouched; the last-login update
happens only on the success path, after the password check. -/
theorem login_wrong_password_generic_401 (secret : String) (e p : String)
    (db : DB) (now : Nat) (hee : e ≠ "") (hpe : p ≠ "") :
    (((db.users.find? fun u => u.email == e).all
        fun u => !(bcryptCompare p u.password)) = true →
      loginHandler secret ⟨some e, some p⟩ db now =
        (⟨401, .obj [("error", .str "Invalid email or password")]⟩, db)) ∧
    (∀ u, db.users.find? (fun v => v.email == e) = some u →
      bcryptCompare p u.password = true →
      (loginHandler secret ⟨some e, some p⟩ db now).1.status = 200 ∧
      (loginHandler secret ⟨some e, some p⟩ db now).2.users =
        updateFirstUser (fun v => v.uid == u.uid)
          (fun v => { v with lastLogin := now }) db.users) := by
  have hcond : (e == "" || p == "") = false := by
    rw [Bool.or_eq_false_iff]
    exact ⟨beq_eq_false_iff_ne.mpr hee, beq_eq_false_iff_ne.mpr hpe⟩
  constructor
  · intro hall
    cases hfind : db.users.find? fun u => u.email == e with
    | none =>
      simp only [loginHandler, hcond, hfind, Bool.false_eq_true, if_false]
    | some u =>
      rw [hfind] at hall
      simp only [Option.all, Bool.not_eq_true'] at hall
      simp only [loginHandler, hcond, hfind, hall, Bool.false_eq_true, if_false,
        Bool.not_false, if_true]
  · intro u hfind hcmp
    constructor
    · simp only [loginHandler, hcond, hfind, hcmp, Bool.false_eq_true, if_false,
        Bool.not_true]
    · simp only [loginHandler, hcond, hfind, hcmp, Bool.false_eq_true, if_false,
        Bool.not_true]

/-- Store with one user (password hash of "secret1") for the C7 witness. -/
def c7Db : DB := ⟨[⟨0, "a@x.com", bcryptHash "secret1" 10, "a", 0, 0⟩], [], 1⟩

/-- Witness for C7: a wrong password against an existing user yields the
generic 401 and an unchanged store. -/
theorem login_wrong_password_generic_401_witness :
    ((c7Db.users.find? fun u => u.email == "a@x.com").all
        fun u => !(bcryptCompare "wrong1" u.password)) = true ∧
    loginHandler "s" ⟨some "a@x.com", some "wrong1"⟩ c7Db 9 =
      (⟨401, JValue.obj [("error", JValue.str "Invalid email or password")]⟩, c7Db) :=
  ⟨by decide,
   (login_wrong_password_generic_401 "s" "a@x.com" "wrong1" c7Db 9 (by decide)
      (by decide)).1 (by decide)⟩

/-- Searching two user lists that agree on everything but password
hashes finds related entries (both absent, or present with all
non-password fields equal). -/
theorem find?_respects_eqExceptPassword (e : String) {l l2 : List User}
    (h : List.Forall₂ eqExceptPassword l l2) :
    (l.find? (fun u => u.email == e) = none ∧
      l2.find? (fun u => u.email == e) = none) ∨
    ∃ u v, l.find? (fun u => u.email == e) = some u ∧
      l2.find? (fun u => u.email == e) = some v ∧ eqExceptPassword u v := by
  induction h with
  | nil => exact Or.inl ⟨rfl, rfl⟩
  | cons huv hrest ih =>
    rename_i a b l' l2'
    by_cases hpa : (a.email == e) = true
    · have hpb : (b.email == e) = true := by rw [← huv.2.1]; exact hpa
      exact Or.inr ⟨a, b, List.find?_cons_of_pos _ hpa,
        List.find?_cons_of_pos _ hpb, huv⟩
    · have hpb : ¬ ((b.email == e) = true) := by rw [← huv.2.1]; exact hpa
      rcases ih with ⟨h1, h2⟩ | ⟨u, v, h1, h2, huv2⟩
      · exact Or.inl
          ⟨(List.find?_cons_of_neg (p := fun u => u.email == e) l' hpa).trans h1,
           (List.find?_cons_of_neg (p := fun u => u.email == e) l2' hpb).trans h2⟩
      · exact Or.inr ⟨u, v,
          (List.find?_cons_of_neg (p := fun u => u.email == e) l' hpa).trans h1,
          (List.find?_cons_of_neg (p := fun u => u.email == e) l2' hpb).trans h2, huv2⟩

/-- C10: when the user exists, the me endpoint answers exactly the
email/name/createdAt projection — no password field — and two stores
differing only in stored password hashes produce identical responses. -/
theorem me_response_excludes_password (c : Claims) (db db2 : DB) (u : User)
    (hfind : db.users.find? (fun v => v.email == c.email) = some u)
    (hrel : List.Forall₂ eqExceptPassword db.users db2.users) :
    (meHandler c db).1 =
      ⟨200, .obj [("email", .str u.email), ("name", .str u.name),
        ("createdAt", .num (Int.ofNat u.createdAt))]⟩ ∧
    (meHandler c db).1 = (meHandler c db2).1 := by
  rcases find?_respects_eqExceptPassword c.email hrel with ⟨h1, h2⟩ |
    ⟨a, v, h1, h2, hav⟩
  · rw [h1] at hfind
    cases hfind
  · rw [h1] at hfind
    obtain rfl : a = u := Option.some.inj hfind
    refine ⟨by simp only [meHandler, h1], ?_⟩
    simp only [meHandler, h1, h2, hav.2.1, hav.2.2.1, hav.2.2.2.1]

/-- Caller claims in the C10 witness. -/
def c10Claims : Claims := ⟨1, "a@x.com", 0, thirtyDaysSeconds⟩

/-- User record in the first C10 witness store. -/
def c10User : User := ⟨0, "a@x.com", bcryptHash "secret1" 10, "a", 4, 5⟩

/-- Same user with a different password hash, second C10 witness store. -/
def c10User2 : User := ⟨0, "a@x.com", bcryptHash "other99" 10, "a", 4, 5⟩

/-- First C10 witness store. -/
def c10Db : DB := ⟨[c10User], [], 1⟩

/-- Second C10 witness store, differing only in the password hash. -/
def c10Db2 : DB := ⟨[c10User2], [], 1⟩

/-- Witness for C10: the two stores differing only in the stored hash
give identical me responses. -/
theorem me_response_excludes_password_witness :
    c10Db.users.find? (fun v => v.email == c10Claims.email) = some c10User ∧
    (meHandler c10Claims c10Db).1 = (meHandler c10Claims c10Db2).1 :=
  ⟨by decide,
   (me_response_excludes_password c10Claims c10Db c10Db2 c10User (by decide)
      (List.Forall₂.cons ⟨rfl, rfl, rfl, rfl, rfl⟩ List.Forall₂.nil)).2⟩
